import Mathlib

/-!
Verification development for the metrics-reporting subsystem of the
compliance operator (`pkg/controller/metrics/metrics.go`,
`pkg/controller/metrics/impl.go`, `pkg/controller/controller.go`).

The Go code is shallowly embedded:

* Prometheus counter vectors become total functions from label tuples to
  `Nat` (a label tuple that was never observed reads 0, matching the
  semantics that an absent tuple contributes no count).
* Prometheus gauge vectors become functions from label tuples to
  `Option Nat` (`none` = the tuple was never set and is absent from a
  scrape).
* The process-global registry and the process-global HTTP mux become
  explicit state values (`List String` of registered collector
  identities, resp. of installed handler patterns) threaded through the
  operations.
* Fallible operations return `Except`/`Option`; `none` for
  `MetricsStart` models a Go panic from `http.Handle`.
-/

/-! ### Constants from the `const` blocks of metrics.go -/

def metricNamespace : String := "compliance_operator"

def metricNameComplianceScanStatus : String := "compliance_scan_status_total"

def metricNameComplianceScanError : String := "compliance_scan_error_total"

def metricNameComplianceRemediationStatus : String := "compliance_remediation_status_total"

def metricNameComplianceStateGauge : String := "compliance_state"

def HandlerPath : String := "/metrics-co"

def ControllerMetricsPort : Nat := 8585

def MetricsAddrListen : String := ":8585"

/-- `METRIC_STATE_COMPLIANT = iota` (0) in metrics.go. -/
def METRIC_STATE_COMPLIANT : Nat := 0

/-- `METRIC_STATE_NON_COMPLIANT` (1) in metrics.go. -/
def METRIC_STATE_NON_COMPLIANT : Nat := 1

/-- `METRIC_STATE_INCONSISTENT` (2) in metrics.go. -/
def METRIC_STATE_INCONSISTENT : Nat := 2

/-- `METRIC_STATE_ERROR` (3) in metrics.go. -/
def METRIC_STATE_ERROR : Nat := 3

/-! ### Data model: instrument state of one `ControllerMetrics` value -/

/-- The four instruments owned by a `ControllerMetrics` value
(metrics.go lines 55-60).  Counter vectors are modelled as total
functions from their label values (in declared label order) to the
current count; the gauge vector maps a suite name to the last value set
for it, `none` when never set. -/
structure ControllerMetrics where
  metricComplianceScanError : String → Nat
  metricComplianceScanStatus : String → String → String → Nat
  metricComplianceRemediationStatus : String → String → Nat
  metricComplianceStateGauge : String → Option Nat

/-- `DefaultControllerMetrics` constructs the four instruments fresh:
every counter tuple reads 0 and no gauge tuple has been set. -/
def DefaultControllerMetrics : ControllerMetrics where
  metricComplianceScanError := fun _ => 0
  metricComplianceScanStatus := fun _ _ _ => 0
  metricComplianceRemediationStatus := fun _ _ => 0
  metricComplianceStateGauge := fun _ => none

/-- Modelled from the spec: the fields of `v1alpha1.ComplianceScanStatus`
used by the metrics subsystem.  The type itself is declared in the
repository's `apis` package, which is outside the provided sources; the
spec's `incScanStatus(name, phase, result, errorMessage)` and the uses
`status.Phase`, `status.Result`, `status.ErrorMessage` in metrics.go fix
the three string-valued fields needed here. -/
structure ComplianceScanStatus where
  Phase : String
  Result : String
  ErrorMessage : String

/-- Modelled from the spec: the field of
`v1alpha1.ComplianceRemediationStatus` used by the metrics subsystem
(`status.ApplicationState` in metrics.go); the type is declared outside
the provided sources. -/
structure ComplianceRemediationStatus where
  ApplicationState : String

/-! ### Mutators (metrics.go lines 178-218) -/

/-- `Metrics.IncComplianceScanStatus`: increments the scan-status
counter for (name, phase, result) and, when the error message is
non-empty (`len(status.ErrorMessage) > 0`), also increments the
scan-error counter for (name). -/
def IncComplianceScanStatus (m : ControllerMetrics) (name : String)
    (status : ComplianceScanStatus) : ControllerMetrics :=
  let m1 : ControllerMetrics :=
    { m with metricComplianceScanStatus := fun n p r =>
        if n = name ∧ p = status.Phase ∧ r = status.Result then
          m.metricComplianceScanStatus n p r + 1
        else
          m.metricComplianceScanStatus n p r }
  if 0 < status.ErrorMessage.length then
    { m1 with metricComplianceScanError := fun n =>
        if n = name then m1.metricComplianceScanError n + 1
        else m1.metricComplianceScanError n }
  else
    m1

/-- `Metrics.IncComplianceRemediationStatus`: increments the
remediation-status counter for (name, applicationState). -/
def IncComplianceRemediationStatus (m : ControllerMetrics) (name : String)
    (status : ComplianceRemediationStatus) : ControllerMetrics :=
  { m with metricComplianceRemediationStatus := fun n s =>
      if n = name ∧ s = status.ApplicationState then
        m.metricComplianceRemediationStatus n s + 1
      else
        m.metricComplianceRemediationStatus n s }

/-- `Metrics.SetComplianceStateInCompliance`: sets the compliance_state
gauge for the suite name to 0. -/
def SetComplianceStateInCompliance (m : ControllerMetrics) (name : String) :
    ControllerMetrics :=
  { m with metricComplianceStateGauge := fun n =>
      if n = name then some METRIC_STATE_COMPLIANT
      else m.metricComplianceStateGauge n }

/-- `Metrics.SetComplianceStateOutOfCompliance`: sets the
compliance_state gauge for the suite name to 1. -/
def SetComplianceStateOutOfCompliance (m : ControllerMetrics) (name : String) :
    ControllerMetrics :=
  { m with metricComplianceStateGauge := fun n =>
      if n = name then some METRIC_STATE_NON_COMPLIANT
      else m.metricComplianceStateGauge n }

/-- `Metrics.SetComplianceStateInconsistent`: sets the compliance_state
gauge for the suite name to 2. -/
def SetComplianceStateInconsistent (m : ControllerMetrics) (name : String) :
    ControllerMetrics :=
  { m with metricComplianceStateGauge := fun n =>
      if n = name then some METRIC_STATE_INCONSISTENT
      else m.metricComplianceStateGauge n }

/-- `Metrics.SetComplianceStateError`: sets the compliance_state gauge
for the suite name to 3. -/
def SetComplianceStateError (m : ControllerMetrics) (name : String) :
    ControllerMetrics :=
  { m with metricComplianceStateGauge := fun n =>
      if n = name then some METRIC_STATE_ERROR
      else m.metricComplianceStateGauge n }

/-! ### Registration (metrics.go lines 137-154, impl.go lines 21-30)

`Metrics.Register` iterates a Go map literal whose keys are the four
metric-name constants and whose values are the corresponding collectors
of the `Metrics` instance.  Go map iteration order is unspecified, so
the loop is embedded as a function of an explicit `order : List String`
of the map keys; claims quantify over permutations of the key set.  The
collector handed to `impl.Register` is determined by the key, so the
abstract registering interface is embedded as a state-passing function
on the map key: `implRegister : σ → String → Except String σ`, where `σ`
is the registry state owned by the impl. -/

/-- The key set of the map literal in `Metrics.Register`, in source
order. -/
def registerMapKeys : List String :=
  [metricNameComplianceScanError,
   metricNameComplianceScanStatus,
   metricNameComplianceRemediationStatus,
   metricNameComplianceStateGauge]

/-- `Metrics.Register`: for each map entry in iteration order, call
`impl.Register` on its collector; on the first failure stop and return
the error wrapped as `errors.Wrapf(err, "register collector for %s
metric", name)`; return nil when every registration succeeded.  The
returned pair is (registry state after the call, returned error). -/
def MetricsRegister {σ : Type} (implRegister : σ → String → Except String σ) :
    List String → σ → σ × Option String
  | [], s => (s, none)
  | n :: rest, s =>
    match implRegister s n with
    | Except.error e =>
        (s, some ("register collector for " ++ n ++ " metric: " ++ e))
    | Except.ok s2 => MetricsRegister implRegister rest s2

/-- `registerAllOk implRegister order s = true` iff every registration
in `order`, run in sequence from state `s`, succeeds. -/
def registerAllOk {σ : Type} (implRegister : σ → String → Except String σ) :
    List String → σ → Bool
  | [], _ => true
  | n :: rest, s =>
    match implRegister s n with
    | Except.error _ => false
    | Except.ok s2 => registerAllOk implRegister rest s2

/-- The registry state after running the registrations in `order` from
state `s`, where a failing registration leaves the state unchanged
(meaningful under `registerAllOk` prefixes). -/
def registerFold {σ : Type} (implRegister : σ → String → Except String σ) :
    List String → σ → σ
  | [], s => s
  | n :: rest, s =>
    match implRegister s n with
    | Except.error _ => s
    | Except.ok s2 => registerFold implRegister rest s2

/-- The full prometheus name of a collector created by
`DefaultControllerMetrics`: namespace, underscore, metric name.  Two
independently constructed `Metrics` instances produce collectors with
identical full names, hence identical registry identities. -/
def fullName (n : String) : String := metricNamespace ++ "_" ++ n

/-- The error text of prometheus `AlreadyRegisteredError`. -/
def duplicateRegistrationMsg : String :=
  "duplicate metrics collector registration attempted"

/-- `prometheus.Register` against the shared default registry, called by
`defaultImpl.Register` (impl.go lines 21-30; the prometheus registry
itself is an external collaborator): the registry state is the list of
registered collector identities; registering an already-present identity
fails with the duplicate-registration error and leaves the registry
unchanged, otherwise the identity is appended. -/
def prometheusRegister (reg : List String) (id : String) :
    Except String (List String) :=
  if id ∈ reg then Except.error duplicateRegistrationMsg
  else Except.ok (reg ++ [id])

/-- `defaultImpl.Register` as seen from `Metrics.Register`'s loop: the
map key `n` determines the collector handed over, whose registry
identity is its full prometheus name; the prometheus error is logged and
returned unchanged. -/
def defaultImplRegister (reg : List String) (n : String) :
    Except String (List String) :=
  prometheusRegister reg (fullName n)

/-! ### Start (metrics.go lines 156-176)

`Metrics.Start` installs the promhttp scrape handler on the
process-global HTTP mux, builds the TLS configuration, and blocks in
`server.ListenAndServeTLS`; a listener error is logged and swallowed and
`Start` returns nil.  The embedding takes the global mux state (the list
of patterns already installed — `http.Handle` panics on a duplicate
pattern), the cancellation state of the `ctx` argument, and the outcome
of the listen call (`none` = clean termination, `some e` = error `e`,
covering unreadable cert/key files and bind or serve failures).  The
result is `none` when the call panics, otherwise `some` of the observable
outcome. -/

/-- The two fields of `crypto/tls.Config` that metrics.go sets. -/
structure TLSConfig where
  MinVersion : Nat
  NextProtos : List String
deriving DecidableEq

/-- `tls.VersionTLS12` (0x0303). -/
def VersionTLS12 : Nat := 771

/-- Modelled from the spec: `libgocrypto.SecureTLSConfig`
(openshift/library-go, an external collaborator outside this
repository).  On the fields modelled here it keeps an explicitly set
non-zero minimum version, defaults a zero one to TLS 1.2, and leaves the
protocol list alone — the spec describes the resulting configuration as
"requiring TLS 1.2 or higher and restricting the negotiated application
protocol to HTTP/1.1". -/
def SecureTLSConfig (c : TLSConfig) : TLSConfig :=
  { c with MinVersion := if c.MinVersion = 0 then VersionTLS12 else c.MinVersion }

/-- The fields of `net/http.Server` that metrics.go sets. -/
structure HTTPServer where
  Addr : String
  ServerTLSConfig : TLSConfig
deriving DecidableEq

/-- Everything observable about one (returning) execution of
`Metrics.Start`: the global mux afterwards, the server configuration,
the certificate/key paths passed to `ListenAndServeTLS`, the error
logged via `m.log.Error` (if any), the returned error value, and
whether `Start` ever issued a shutdown/close of the server (its body
contains no such call). -/
structure StartOutcome where
  mux : List String
  server : HTTPServer
  certFile : String
  keyFile : String
  loggedFailure : Option String
  returned : Option String
  shutdownIssued : Bool
deriving DecidableEq

/-- `Metrics.Start`.  The `ctxCancelled` argument records whether the
`ctx context.Context` parameter is (or becomes) cancelled; the body of
`Start` never references `ctx`, so the argument is unused, exactly as in
the source. -/
def MetricsStart (mux : List String) (ctxCancelled : Bool)
    (listenResult : Option String) : Option StartOutcome :=
  if HandlerPath ∈ mux then
    none
  else
    let tlsConfig : TLSConfig :=
      { MinVersion := VersionTLS12, NextProtos := ["http/1.1"] }
    let tlsConfig := SecureTLSConfig tlsConfig
    some
      { mux := mux ++ [HandlerPath]
        server := { Addr := MetricsAddrListen, ServerTLSConfig := tlsConfig }
        certFile := "/var/run/secrets/serving-cert/tls.crt"
        keyFile := "/var/run/secrets/serving-cert/tls.key"
        loggedFailure := listenResult
        returned := none
        shutdownIssued := false }

/-! ### Helper notions for sequences of mutator calls -/

/-- A sequence of `IncComplianceScanStatus` calls, applied in order. -/
def applyScanCalls (m : ControllerMetrics)
    (calls : List (String × ComplianceScanStatus)) : ControllerMetrics :=
  calls.foldl (fun acc c => IncComplianceScanStatus acc c.1 c.2) m

/-- The four compliance-state setters, as an enumeration of which one is
called. -/
inductive ComplianceSetter where
  | inCompliance
  | outOfCompliance
  | inconsistent
  | errorState
deriving DecidableEq

/-- The gauge ordinal each setter writes. -/
def setterOrdinal : ComplianceSetter → Nat
  | ComplianceSetter.inCompliance => METRIC_STATE_COMPLIANT
  | ComplianceSetter.outOfCompliance => METRIC_STATE_NON_COMPLIANT
  | ComplianceSetter.inconsistent => METRIC_STATE_INCONSISTENT
  | ComplianceSetter.errorState => METRIC_STATE_ERROR

/-- Dispatch one setter call for a suite name. -/
def applyComplianceSetter (m : ControllerMetrics) (name : String) :
    ComplianceSetter → ControllerMetrics
  | ComplianceSetter.inCompliance => SetComplianceStateInCompliance m name
  | ComplianceSetter.outOfCompliance => SetComplianceStateOutOfCompliance m name
  | ComplianceSetter.inconsistent => SetComplianceStateInconsistent m name
  | ComplianceSetter.errorState => SetComplianceStateError m name

/-- A sequence of setter calls for one suite name, applied in order. -/
def applyComplianceSetters (m : ControllerMetrics) (name : String)
    (l : List ComplianceSetter) : ControllerMetrics :=
  l.foldl (fun acc s => applyComplianceSetter acc name s) m

/-! ### Lemmas about single mutator calls -/

theorem incScanStatus_scanStatus (m : ControllerMetrics) (nm : String)
    (st : ComplianceScanStatus) (n p r : String) :
    (IncComplianceScanStatus m nm st).metricComplianceScanStatus n p r
      = m.metricComplianceScanStatus n p r
        + (if n = nm ∧ p = st.Phase ∧ r = st.Result then 1 else 0) := by
  unfold IncComplianceScanStatus
  by_cases h : 0 < st.ErrorMessage.length <;> simp [h] <;> split <;> simp

theorem incScanStatus_scanError (m : ControllerMetrics) (nm : String)
    (st : ComplianceScanStatus) (n : String) :
    (IncComplianceScanStatus m nm st).metricComplianceScanError n
      = m.metricComplianceScanError n
        + (if n = nm ∧ 0 < st.ErrorMessage.length then 1 else 0) := by
  unfold IncComplianceScanStatus
  by_cases h : 0 < st.ErrorMessage.length <;>
    by_cases hn : n = nm <;> simp [h, hn]

theorem applyScanCalls_scanStatus
    (calls : List (String × ComplianceScanStatus)) (m : ControllerMetrics)
    (n p r : String) :
    (applyScanCalls m calls).metricComplianceScanStatus n p r
      = m.metricComplianceScanStatus n p r
        + calls.countP
            (fun c => decide (n = c.1 ∧ p = c.2.Phase ∧ r = c.2.Result)) := by
  induction calls generalizing m with
  | nil => simp [applyScanCalls]
  | cons c rest ih =>
    have hstep : applyScanCalls m (c :: rest)
        = applyScanCalls (IncComplianceScanStatus m c.1 c.2) rest := rfl
    rw [hstep, ih, incScanStatus_scanStatus]
    simp only [List.countP_cons, decide_eq_true_eq]
    split_ifs <;> omega

theorem applyComplianceSetter_gauge (m : ControllerMetrics) (name : String)
    (s : ComplianceSetter) (n : String) :
    (applyComplianceSetter m name s).metricComplianceStateGauge n
      = if n = name then some (setterOrdinal s)
        else m.metricComplianceStateGauge n := by
  cases s <;>
    simp [applyComplianceSetter, setterOrdinal,
      SetComplianceStateInCompliance, SetComplianceStateOutOfCompliance,
      SetComplianceStateInconsistent, SetComplianceStateError]

/-! ### Claims about the mutators -/

/-- C2: every call to `IncComplianceScanStatus(name, status)` increments
the scan-status counter for (name, phase, result) by exactly 1, and
increments the scan-error counter for (name) by exactly 1 when the error
message is non-empty and leaves it unchanged when the error message is
empty. -/
theorem incComplianceScanStatus_spec (m : ControllerMetrics) (name : String)
    (st : ComplianceScanStatus) :
    (IncComplianceScanStatus m name st).metricComplianceScanStatus
        name st.Phase st.Result
      = m.metricComplianceScanStatus name st.Phase st.Result + 1
    ∧ (IncComplianceScanStatus m name st).metricComplianceScanError name
      = m.metricComplianceScanError name
        + (if 0 < st.ErrorMessage.length then 1 else 0) := by
  constructor
  · rw [incScanStatus_scanStatus]; simp
  · rw [incScanStatus_scanError]; simp

/-- C4: after any sequence of compliance-state setter calls for a suite
name ending in setter `s`, the gauge for that name reads exactly the
ordinal of `s`; that ordinal is always one of 0,1,2,3; and repeating the
same setter has no additional effect on the gauge. -/
theorem complianceState_last_setter_wins (m : ControllerMetrics)
    (name : String) (ss : List ComplianceSetter) (s : ComplianceSetter) :
    (applyComplianceSetters m name (ss ++ [s])).metricComplianceStateGauge name
      = some (setterOrdinal s)
    ∧ setterOrdinal s ≤ 3
    ∧ ∀ n, (applyComplianceSetter (applyComplianceSetter m name s) name
          s).metricComplianceStateGauge n
        = (applyComplianceSetter m name s).metricComplianceStateGauge n := by
  refine ⟨?_, ?_, ?_⟩
  · have hsplit : applyComplianceSetters m name (ss ++ [s])
        = applyComplianceSetter (applyComplianceSetters m name ss) name s := by
      simp [applyComplianceSetters, List.foldl_append]
    rw [hsplit, applyComplianceSetter_gauge]
    simp
  · cases s <;>
      simp [setterOrdinal, METRIC_STATE_COMPLIANT, METRIC_STATE_NON_COMPLIANT,
        METRIC_STATE_INCONSISTENT, METRIC_STATE_ERROR]
  · intro n
    rw [applyComplianceSetter_gauge, applyComplianceSetter_gauge]
    split <;> rfl

/-- C5: starting from freshly constructed instruments, after any
sequence of `IncComplianceScanStatus` calls the scan-status counter for
a tuple (n, p, r) reads exactly the number of calls in the sequence for
that tuple, regardless of interleaved calls for other tuples; and the
counter never decreases as the sequence is extended (it is never
reset). -/
theorem scanStatus_counter_counts_calls
    (calls extra : List (String × ComplianceScanStatus)) (n p r : String) :
    (applyScanCalls DefaultControllerMetrics calls).metricComplianceScanStatus
        n p r
      = calls.countP
          (fun c => decide (n = c.1 ∧ p = c.2.Phase ∧ r = c.2.Result))
    ∧ (applyScanCalls DefaultControllerMetrics
          calls).metricComplianceScanStatus n p r
      ≤ (applyScanCalls DefaultControllerMetrics
          (calls ++ extra)).metricComplianceScanStatus n p r := by
  constructor
  · rw [applyScanCalls_scanStatus]
    simp [DefaultControllerMetrics]
  · rw [applyScanCalls_scanStatus, applyScanCalls_scanStatus,
      List.countP_append]
    omega

/-! ### Lemmas about the registration loop -/

theorem metricsRegister_ok_iff {σ : Type}
    (implRegister : σ → String → Except String σ) (order : List String)
    (s : σ) :
    (MetricsRegister implRegister order s).2 = none
      ↔ registerAllOk implRegister order s = true := by
  induction order generalizing s with
  | nil => simp [MetricsRegister, registerAllOk]
  | cons n rest ih =>
    cases h : implRegister s n with
    | error e => simp [MetricsRegister, registerAllOk, h]
    | ok s2 => simp [MetricsRegister, registerAllOk, h, ih]

theorem metricsRegister_first_fail {σ : Type}
    (implRegister : σ → String → Except String σ) (pre : List String)
    (n : String) (post : List String) (e : String) (s : σ)
    (hok : registerAllOk implRegister pre s = true)
    (hfail : implRegister (registerFold implRegister pre s) n
      = Except.error e) :
    MetricsRegister implRegister (pre ++ n :: post) s
      = (registerFold implRegister pre s,
         some ("register collector for " ++ n ++ " metric: " ++ e)) := by
  induction pre generalizing s with
  | nil =>
    simp only [registerFold] at hfail
    simp [MetricsRegister, registerFold, hfail]
  | cons p pre ih =>
    cases h : implRegister s p with
    | error e2 => simp [registerAllOk, h] at hok
    | ok s2 =>
      have hok2 : registerAllOk implRegister pre s2 = true := by
        simpa [registerAllOk, h] using hok
      have hfail2 : implRegister (registerFold implRegister pre s2) n
          = Except.error e := by
        simpa [registerFold, h] using hfail
      simp [MetricsRegister, registerFold, h, ih s2 hok2 hfail2]

theorem metricsRegister_defaultImpl_success (order reg : List String)
    (hnodup : (order.map fullName).Nodup)
    (hfresh : ∀ n ∈ order, fullName n ∉ reg) :
    MetricsRegister defaultImplRegister order reg
      = (reg ++ order.map fullName, none) := by
  induction order generalizing reg with
  | nil => simp [MetricsRegister]
  | cons n rest ih =>
    have hn : fullName n ∉ reg := hfresh n (List.mem_cons_self n rest)
    have hreg : defaultImplRegister reg n
        = Except.ok (reg ++ [fullName n]) := by
      simp [defaultImplRegister, prometheusRegister, hn]
    have hnodup2 : (rest.map fullName).Nodup := (List.nodup_cons.mp hnodup).2
    have hhead : fullName n ∉ rest.map fullName :=
      (List.nodup_cons.mp hnodup).1
    have hfresh2 : ∀ m ∈ rest, fullName m ∉ reg ++ [fullName n] := by
      intro m hm hmem
      rcases List.mem_append.mp hmem with hmem | hmem
      · exact hfresh m (List.mem_cons_of_mem n hm) hmem
      · have : fullName m = fullName n := List.mem_singleton.mp hmem
        exact hhead (this ▸ List.mem_map_of_mem fullName hm)
    simp [MetricsRegister, hreg, ih (reg ++ [fullName n]) hnodup2 hfresh2]

/-! ### Claims about registration -/

/-- C3: `Metrics.Register` iterates the four instruments (in some map
iteration order, a permutation of the four map keys), calling the impl's
register for each; it returns nil iff every registration succeeds, and
when a registration fails with all earlier ones having succeeded, it
stops and returns that failure wrapped with the offending instrument's
metric name. -/
theorem register_stops_at_first_failure {σ : Type}
    (implRegister : σ → String → Except String σ) (s : σ)
    (order : List String) (_horder : order.Perm registerMapKeys) :
    ((MetricsRegister implRegister order s).2 = none
      ↔ registerAllOk implRegister order s = true)
    ∧ ∀ pre n post e, order = pre ++ n :: post →
        registerAllOk implRegister pre s = true →
        implRegister (registerFold implRegister pre s) n = Except.error e →
        (MetricsRegister implRegister order s).2
          = some ("register collector for " ++ n ++ " metric: " ++ e) := by
  refine ⟨metricsRegister_ok_iff implRegister order s, ?_⟩
  intro pre n post e horder2 hok hfail
  subst horder2
  rw [metricsRegister_first_fail implRegister pre n post e s hok hfail]

/-- Witness for C3: against a registry already holding the scan-status
collector, registration in source map order succeeds for the scan-error
collector and then stops at the scan-status collector, returning the
duplicate error wrapped with that metric name. -/
theorem register_stops_at_first_failure_witness :
    (MetricsRegister defaultImplRegister registerMapKeys
        [fullName metricNameComplianceScanStatus]).2
      = some ("register collector for " ++ metricNameComplianceScanStatus
          ++ " metric: " ++ duplicateRegistrationMsg) :=
  (register_stops_at_first_failure defaultImplRegister
      [fullName metricNameComplianceScanStatus] registerMapKeys
      (List.Perm.refl _)).2
    [metricNameComplianceScanError] metricNameComplianceScanStatus
    [metricNameComplianceRemediationStatus, metricNameComplianceStateGauge]
    duplicateRegistrationMsg rfl (by decide) rfl

/-- C6: for any two map iteration orders, `Metrics.Register` run on a
fresh shared registry succeeds and leaves all four collector identities
registered (hence all four metric names visible in a scrape of that
registry); run a second time — as by a second, independently constructed
`Metrics` sharing the registry — it fails with the duplicate-registration
error wrapped with one of the four metric names. -/
theorem register_twice_duplicate_error (o1 o2 : List String)
    (h1 : o1.Perm registerMapKeys) (h2 : o2.Perm registerMapKeys) :
    (MetricsRegister defaultImplRegister o1 ([] : List String)).2 = none
    ∧ (∀ n ∈ registerMapKeys,
        fullName n
          ∈ (MetricsRegister defaultImplRegister o1 ([] : List String)).1)
    ∧ ∃ n, n ∈ registerMapKeys ∧
        (MetricsRegister defaultImplRegister o2
            (MetricsRegister defaultImplRegister o1 ([] : List String)).1).2
          = some ("register collector for " ++ n ++ " metric: "
              ++ duplicateRegistrationMsg) := by
  have hkeys : (registerMapKeys.map fullName).Nodup := by decide
  have hnodup : (o1.map fullName).Nodup :=
    ((h1.map fullName).nodup_iff).mpr hkeys
  have hrun : MetricsRegister defaultImplRegister o1 ([] : List String)
      = ([] ++ o1.map fullName, none) :=
    metricsRegister_defaultImpl_success o1 [] hnodup (by simp)
  have hmem : ∀ n ∈ registerMapKeys,
      fullName n ∈ (MetricsRegister defaultImplRegister o1
        ([] : List String)).1 := by
    intro n hn
    rw [hrun]
    simpa using List.mem_map_of_mem fullName (h1.mem_iff.mpr hn)
  refine ⟨by rw [hrun], hmem, ?_⟩
  cases o2 with
  | nil =>
    have hlen := h2.length_eq
    simp [registerMapKeys] at hlen
  | cons n rest =>
    have hnk : n ∈ registerMapKeys :=
      h2.mem_iff.mp (List.mem_cons_self n rest)
    have hdup : fullName n
        ∈ (MetricsRegister defaultImplRegister o1 ([] : List String)).1 :=
      hmem n hnk
    refine ⟨n, hnk, ?_⟩
    simp [MetricsRegister, defaultImplRegister, prometheusRegister, hdup]

/-- Witness for C6 at the source map order used twice. -/
theorem register_twice_duplicate_error_witness :
    (MetricsRegister defaultImplRegister registerMapKeys
        ([] : List String)).2 = none
    ∧ (∀ n ∈ registerMapKeys,
        fullName n ∈ (MetricsRegister defaultImplRegister registerMapKeys
          ([] : List String)).1)
    ∧ ∃ n, n ∈ registerMapKeys ∧
        (MetricsRegister defaultImplRegister registerMapKeys
            (MetricsRegister defaultImplRegister registerMapKeys
              ([] : List String)).1).2
          = some ("register collector for " ++ n ++ " metric: "
              ++ duplicateRegistrationMsg) :=
  register_twice_duplicate_error registerMapKeys registerMapKeys
    (List.Perm.refl _) (List.Perm.refl _)

/-- C9: `Metrics.Register` is not atomic on failure.  Against a registry
already holding the scan-status collector identity, two legitimate map
iteration orders both fail on the scan-status collector, yet leave
different collectors behind in the registry (the one registered before
the failure; no rollback happens), so the registered subset depends on
the unspecified map iteration order. -/
theorem register_not_atomic_on_failure :
    ([metricNameComplianceScanError, metricNameComplianceScanStatus,
      metricNameComplianceRemediationStatus,
      metricNameComplianceStateGauge].Perm registerMapKeys)
    ∧ ([metricNameComplianceStateGauge, metricNameComplianceScanStatus,
        metricNameComplianceScanError,
        metricNameComplianceRemediationStatus].Perm registerMapKeys)
    ∧ MetricsRegister defaultImplRegister
        [metricNameComplianceScanError, metricNameComplianceScanStatus,
         metricNameComplianceRemediationStatus,
         metricNameComplianceStateGauge]
        [fullName metricNameComplianceScanStatus]
      = ([fullName metricNameComplianceScanStatus,
          fullName metricNameComplianceScanError],
         some ("register collector for " ++ metricNameComplianceScanStatus
            ++ " metric: " ++ duplicateRegistrationMsg))
    ∧ MetricsRegister defaultImplRegister
        [metricNameComplianceStateGauge, metricNameComplianceScanStatus,
         metricNameComplianceScanError,
         metricNameComplianceRemediationStatus]
        [fullName metricNameComplianceScanStatus]
      = ([fullName metricNameComplianceScanStatus,
          fullName metricNameComplianceStateGauge],
         some ("register collector for " ++ metricNameComplianceScanStatus
            ++ " metric: " ++ duplicateRegistrationMsg)) := by
  refine ⟨by decide, by decide, by decide, by decide⟩

/-! ### Claims about Start -/

/-- C1: whenever `Metrics.Start` returns (i.e. the call does not panic
in `http.Handle`), the returned error value is nil — in particular when
the certificate/key files cannot be read or the listener fails, in which
case the listen error is exactly what gets logged via `m.log.Error`
instead of being propagated. -/
theorem start_always_returns_nil (mux : List String) (cancelled : Bool)
    (listenResult : Option String) (out : StartOutcome)
    (h : MetricsStart mux cancelled listenResult = some out) :
    out.returned = none ∧ out.loggedFailure = listenResult := by
  unfold MetricsStart at h
  split at h
  · simp at h
  · rw [Option.some_inj] at h
    subst h
    exact ⟨rfl, rfl⟩

/-- The listen error produced when the fixed certificate path does not
exist. -/
def certReadFailure : String :=
  "open /var/run/secrets/serving-cert/tls.crt: no such file or directory"

/-- Outcome of a first `Metrics.Start` call whose listener fails because
the certificate file cannot be read. -/
def firstStartOutcome : StartOutcome where
  mux := [HandlerPath]
  server :=
    { Addr := MetricsAddrListen
      ServerTLSConfig := { MinVersion := VersionTLS12, NextProtos := ["http/1.1"] } }
  certFile := "/var/run/secrets/serving-cert/tls.crt"
  keyFile := "/var/run/secrets/serving-cert/tls.key"
  loggedFailure := some certReadFailure
  returned := none
  shutdownIssued := false

/-- Witness for C1: a first call whose cert file is unreadable still
returns nil and logs the read failure. -/
theorem start_always_returns_nil_witness :
    firstStartOutcome.returned = none
    ∧ firstStartOutcome.loggedFailure = some certReadFailure :=
  start_always_returns_nil [] false (some certReadFailure)
    firstStartOutcome rfl

/-- C7: a (non-panicking) `Metrics.Start` call binds the scrape handler
at the fixed path `/metrics-co`, builds a TLS configuration with minimum
version TLS 1.2 (`VersionTLS12 = 0x0303 = 771`) and application
protocols restricted to HTTP/1.1, and serves on the fixed address
`:8585` with the certificate and key read from the fixed paths under
`/var/run/secrets/serving-cert`. -/
theorem start_server_configuration (mux : List String) (cancelled : Bool)
    (listenResult : Option String) (h : HandlerPath ∉ mux) :
    ∃ out, MetricsStart mux cancelled listenResult = some out
      ∧ "/metrics-co" ∈ out.mux
      ∧ out.server.ServerTLSConfig.MinVersion = VersionTLS12
      ∧ out.server.ServerTLSConfig.NextProtos = ["http/1.1"]
      ∧ out.server.Addr = ":8585"
      ∧ out.certFile = "/var/run/secrets/serving-cert/tls.crt"
      ∧ out.keyFile = "/var/run/secrets/serving-cert/tls.key" := by
  unfold MetricsStart
  rw [if_neg h]
  exact ⟨_, rfl, by simp [HandlerPath], rfl, rfl, rfl, rfl, rfl⟩

/-- Witness for C7: the first call of the process. -/
theorem start_server_configuration_witness :
    ∃ out, MetricsStart [] false none = some out
      ∧ "/metrics-co" ∈ out.mux
      ∧ out.server.ServerTLSConfig.MinVersion = VersionTLS12
      ∧ out.server.ServerTLSConfig.NextProtos = ["http/1.1"]
      ∧ out.server.Addr = ":8585"
      ∧ out.certFile = "/var/run/secrets/serving-cert/tls.crt"
      ∧ out.keyFile = "/var/run/secrets/serving-cert/tls.key" :=
  start_server_configuration [] false none (by simp)

/-- C8 counterexample: with the passed context cancelled and the
listener reporting the shutdown-style error, `Start` behaves exactly as
with a live context and never closes/shuts down the server — the `ctx`
parameter is unused in the body of `Start`, so cancellation does not
close the listener. -/
theorem start_cancellation_ineffective_cex :
    MetricsStart [] true (some "http: Server closed")
      = MetricsStart [] false (some "http: Server closed")
    ∧ ∃ out, MetricsStart [] true (some "http: Server closed") = some out
        ∧ out.shutdownIssued = false := by
  exact ⟨rfl, ⟨_, rfl, rfl⟩⟩

/-- C8 (amended): `Metrics.Start` ignores its cancellable context —
cancellation has no effect on its behavior and `Start` never closes the
listener itself; independently, whenever `Start` returns, the listener
error (if any) is not propagated: the returned error value is nil. -/
theorem start_ignores_context (mux : List String) (c1 c2 : Bool)
    (listenResult : Option String) :
    MetricsStart mux c1 listenResult = MetricsStart mux c2 listenResult
    ∧ ∀ out, MetricsStart mux c1 listenResult = some out →
        out.shutdownIssued = false ∧ out.returned = none := by
  refine ⟨rfl, ?_⟩
  intro out h
  unfold MetricsStart at h
  split at h
  · simp at h
  · rw [Option.some_inj] at h
    subst h
    exact ⟨rfl, rfl⟩

/-- Witness for C8 (amended) at a concrete first call. -/
theorem start_ignores_context_witness :
    MetricsStart [] true none = MetricsStart [] false none
    ∧ ∀ out, MetricsStart [] true none = some out →
        out.shutdownIssued = false ∧ out.returned = none :=
  start_ignores_context [] true false none

/-- C10: a successful `Metrics.Start` installs the handler pattern
`/metrics-co` on the process-global mux, and a second `Start` call in
the same process then panics in `http.Handle` (modelled as `none`)
rather than returning an error. -/
theorem second_start_panics (mux : List String) (c1 c2 : Bool)
    (e1 e2 : Option String) (out : StartOutcome)
    (h : MetricsStart mux c1 e1 = some out) :
    HandlerPath ∈ out.mux ∧ MetricsStart out.mux c2 e2 = none := by
  unfold MetricsStart at h
  split at h
  · simp at h
  · rw [Option.some_inj] at h
    subst h
    constructor
    · simp
    · unfold MetricsStart
      rw [if_pos (by simp)]

/-- Outcome of a first, cleanly terminating `Metrics.Start` call. -/
def cleanStartOutcome : StartOutcome where
  mux := [HandlerPath]
  server :=
    { Addr := MetricsAddrListen
      ServerTLSConfig := { MinVersion := VersionTLS12, NextProtos := ["http/1.1"] } }
  certFile := "/var/run/secrets/serving-cert/tls.crt"
  keyFile := "/var/run/secrets/serving-cert/tls.key"
  loggedFailure := none
  returned := none
  shutdownIssued := false

/-- Witness for C10: after the process's first `Start` call, a second
call panics. -/
theorem second_start_panics_witness :
    HandlerPath ∈ cleanStartOutcome.mux
    ∧ MetricsStart cleanStartOutcome.mux false none = none :=
  second_start_panics [] false false none none cleanStartOutcome rfl
